import Mathlib

/-!
Shallow embedding of `src/app.py` (a Flask service relaying LINE webhook
text messages into rows of a Google spreadsheet) and proofs about it.

Modelling conventions:
* Python exceptions are modelled with `Except PyExc`; a Python function
  wrapped in `try/except` becomes a total Lean function that pattern
  matches on the `Except` result of its body.
* The two vendor SDKs (the LINE messaging library and the gspread
  spreadsheet library) are external dependencies, not code of this
  repository; their handles are modelled as structures whose fields are
  the operations the code under `src/` calls, left abstract so theorems
  quantify over every possible SDK behaviour.
* `os.environ` is modelled as a function `String → Option String`
  (`os.environ.get` returns `None` for an absent key); Python truthiness
  of an optional string (`if X:`) is `none` and `some ""` falsy.
-/

/-- A Python exception value, as far as `app.py` distinguishes them:
`linebot.exceptions.InvalidSignatureError` is caught by name in
`webhook`; attribute access on `None` raises `AttributeError`; everything
else is an arbitrary `Exception`. -/
inductive PyExc where
  | invalidSignatureError
  | attributeError (msg : String)
  | exc (msg : String)
deriving DecidableEq

/-- The process environment, as read by `os.environ.get`. -/
def Env : Type := String → Option String

/-- Python truthiness of an optional string: `None` and `""` are falsy. -/
def truthy : Option String → Bool
  | none => false
  | some s => s != ""

/-- The five module-level configuration values of `app.py`, lines 19-25. -/
structure Config where
  LINE_CHANNEL_ACCESS_TOKEN : Option String
  LINE_CHANNEL_SECRET : Option String
  GOOGLE_SPREADSHEET_ID : Option String
  GOOGLE_SHEET_NAME : String
  GOOGLE_CREDENTIALS_JSON : Option String

/-- Lines 19-25: each value is read with `os.environ.get`; only
`GOOGLE_SHEET_NAME` has a default (`'Sheet1'`). No validation, no
exception: a plain total function of the environment. -/
def loadConfig (env : Env) : Config where
  LINE_CHANNEL_ACCESS_TOKEN := env "LINE_CHANNEL_ACCESS_TOKEN"
  LINE_CHANNEL_SECRET := env "LINE_CHANNEL_SECRET"
  GOOGLE_SPREADSHEET_ID := env "GOOGLE_SPREADSHEET_ID"
  GOOGLE_SHEET_NAME := (env "GOOGLE_SHEET_NAME").getD "Sheet1"
  GOOGLE_CREDENTIALS_JSON := env "GOOGLE_CREDENTIALS_JSON"

/-- A LINE user profile; the code only reads `display_name` (line 150). -/
structure Profile where
  display_name : String

/-- The `linebot.LineBotApi` handle. The only operation `app.py` invokes
on it is `get_profile(user_id)` (line 149), which may raise (profile not
found, network error) — modelled abstractly. -/
structure LineBotApi where
  get_profile : String → Except PyExc Profile

/-- A parsed inbound text-message event. The code reads
`event.source.user_id` (line 145) and `event.message.text` (line 155);
either attribute access may raise on a malformed event (spec §9 notes
the fields are unguarded), so each getter is `Except`-valued. -/
structure Event where
  source_user_id : Except PyExc String
  message_text : Except PyExc String

/-- A `gspread` worksheet handle; `append_row` (line 94) is the remote
append, which may raise (rate limit, permission, network). -/
structure Worksheet where
  append_row : List String → Except PyExc Unit

/-- A `gspread` spreadsheet handle; `worksheet(name)` (line 87) selects a
tab by name and raises if it does not exist. -/
structure Spreadsheet where
  worksheet : String → Except PyExc Worksheet

/-- The `gspread` client handle; `open_by_key` (line 86) opens a
spreadsheet by id (the id read from config may be absent) and raises on
an invalid id. -/
structure SheetsClient where
  open_by_key : Option String → Except PyExc Spreadsheet

/-- Lines 78-101, `write_to_sheet(user_id, display_name, message_text)`.
The whole body is wrapped in `try/except Exception`, so the model is a
total function: each failing step short-circuits to `False`. The second
component is the list of rows the remote append completed during the
call (empty on every failure path, the single 4-tuple row on success).
`datetime.now().strftime(...)` (line 90) is passed in as `now`. -/
def write_to_sheet (sheets_client : Option SheetsClient) (cfg : Config)
    (now user_id display_name message_text : String) :
    Bool × List (List String) :=
  match sheets_client with
  | none => (false, [])
  | some c =>
    match c.open_by_key cfg.GOOGLE_SPREADSHEET_ID with
    | .error _ => (false, [])
    | .ok spreadsheet =>
      match spreadsheet.worksheet cfg.GOOGLE_SHEET_NAME with
      | .error _ => (false, [])
      | .ok ws =>
        let row_data := [now, user_id, display_name, message_text]
        match ws.append_row row_data with
        | .error _ => (false, [])
        | .ok _ => (true, [row_data])

/-- Lines 147-152: the inner `try` of `handle_text_message`. If
`line_bot_api` is `None`, `None.get_profile` raises `AttributeError`;
the bare `except:` catches that and every lookup failure, substituting
the sentinel `"Unknown User"`. (Spec §4.2 names this operation
`get_display_name`.) -/
def get_display_name (line_bot_api : Option LineBotApi)
    (user_id : String) : String :=
  match line_bot_api with
  | none => "Unknown User"
  | some api =>
    match api.get_profile user_id with
    | .error _ => "Unknown User"
    | .ok profile => profile.display_name

/-- The body of `handle_text_message` (lines 143-163), i.e. everything
inside the outer `try`: extract `user_id` (line 145, may raise), resolve
the display name (lines 147-152, never raises), extract the message text
(line 155, may raise), then call `write_to_sheet` (line 158). Returns
the write's boolean result together with the rows appended. -/
def handle_text_message_body (line_bot_api : Option LineBotApi)
    (sheets_client : Option SheetsClient) (cfg : Config) (now : String)
    (event : Event) : Except PyExc (Bool × List (List String)) :=
  match event.source_user_id with
  | .error e => .error e
  | .ok user_id =>
    let display_name := get_display_name line_bot_api user_id
    match event.message_text with
    | .error e => .error e
    | .ok message_text =>
      .ok (write_to_sheet sheets_client cfg now user_id display_name
            message_text)

/-- Outcome of one `handle_text_message` invocation: the outer
`except Exception` fired (line 165), or the write succeeded / failed
(lines 160-163). In every case the function returns normally. -/
inductive Outcome where
  | caught (e : PyExc)
  | success
  | failure
deriving DecidableEq

/-- Lines 141-166, `handle_text_message(event)`: the body under its
catch-all `try/except Exception` (line 165), which logs and returns —
the handler never re-raises. Second component: rows appended while
handling this event. -/
def handle_text_message (line_bot_api : Option LineBotApi)
    (sheets_client : Option SheetsClient) (cfg : Config) (now : String)
    (event : Event) : Outcome × List (List String) :=
  match handle_text_message_body line_bot_api sheets_client cfg now event with
  | .error e => (.caught e, [])
  | .ok (true, rows) => (.success, rows)
  | .ok (false, rows) => (.failure, rows)

/-- The vendor `WebhookHandler` dispatcher. Modelled from the spec
(§4.2, §8): the library is an external collaborator, not code under
`src/`. It holds the channel secret; `signature_of` is the expected
HMAC-style digest of a body under a secret (abstract); verification
succeeds iff the header equals that digest (spec §8); after successful
verification the body is parsed into events, which may fail. -/
structure Dispatcher where
  channel_secret : String
  signature_of : String → String → String
  parse_events : String → Except PyExc (List Event)

/-- Sequential fan-out of the dispatcher over the parsed events: each
event is handed to the (total) registered handler in order. -/
def dispatch_events (line_bot_api : Option LineBotApi)
    (sheets_client : Option SheetsClient) (cfg : Config) (now : String)
    (events : List Event) : List (Outcome × List (List String)) :=
  events.map (handle_text_message line_bot_api sheets_client cfg now)

/-- `handler.handle(body, signature)` (line 130), modelled from the spec
(§4.2): verify the signature header against the digest of the body under
the secret, raising `InvalidSignatureError` on mismatch; then parse the
body (parse errors propagate as generic exceptions); then invoke the
registered handler on every contained text-message event. -/
def Dispatcher.handle (d : Dispatcher) (line_bot_api : Option LineBotApi)
    (sheets_client : Option SheetsClient) (cfg : Config) (now : String)
    (body signature : String) :
    Except PyExc (List (Outcome × List (List String))) :=
  if signature == d.signature_of d.channel_secret body then
    match d.parse_events body with
    | .error e => .error e
    | .ok events =>
      .ok (dispatch_events line_bot_api sheets_client cfg now events)
  else
    .error .invalidSignatureError

/-- An inbound HTTP request as `webhook` reads it: a header lookup
(`request.headers.get`, total with default) and the raw body text. -/
structure Request where
  headers : String → Option String
  body : String

/-- Lines 118-138, the `/webhook` endpoint. The header read
`request.headers.get('X-Line-Signature', '')` (line 123) never raises —
a missing header yields `''`. If the global `handler` is falsy
(uninitialized), respond 500 `'LINE handler not initialized'`
(lines 126-128). Otherwise `handler.handle` runs under
`except InvalidSignatureError` → 400 `'Invalid signature'` and
`except Exception` → 500 `'Internal server error'`; success → 200
`'OK'`. Result is (body, status). -/
def webhook (handler : Option Dispatcher) (line_bot_api : Option LineBotApi)
    (sheets_client : Option SheetsClient) (cfg : Config) (now : String)
    (req : Request) : String × Nat :=
  let signature := (req.headers "X-Line-Signature").getD ""
  let body := req.body
  match handler with
  | none => ("LINE handler not initialized", 500)
  | some d =>
    match d.handle line_bot_api sheets_client cfg now body signature with
    | .ok _ => ("OK", 200)
    | .error .invalidSignatureError => ("Invalid signature", 400)
    | .error _ => ("Internal server error", 500)

/-- The JSON body returned by `/` (lines 106-111). -/
structure HomeBody where
  message : String
  status : String
  line_configured : Bool
  sheets_configured : Bool
deriving DecidableEq

/-- Lines 103-111, the `/` endpoint: always 200, with
`line_configured` / `sheets_configured` reporting whether the two
singletons `line_bot_api` / `sheets_client` are non-`None`. It reads no
other part of either handle and performs no SDK call. -/
def home (line_bot_api : Option LineBotApi)
    (sheets_client : Option SheetsClient) : Nat × HomeBody :=
  (200,
    { message := "LINE to Sheets System is running on Render.com"
      status := "ok"
      line_configured := line_bot_api.isSome
      sheets_configured := sheets_client.isSome })

/-- Lines 113-116, the `/health` endpoint: always 200 with status
`healthy`, touching nothing. -/
def health : Nat × String := (200, "healthy")

/-- The three module-level singletons (lines 28-30), all `None` until an
initializer assigns them. -/
structure AppState where
  line_bot_api : Option LineBotApi
  handler : Option Dispatcher
  sheets_client : Option SheetsClient

/-- The constructors of the LINE SDK as `initialize_line_bot` calls
them: `LineBotApi(token)` (line 37) and `WebhookHandler(secret)`
(line 38), either of which may raise. Abstract: theorems quantify over
every SDK behaviour. -/
structure LineSdk where
  line_bot_api_ctor : String → Except PyExc LineBotApi
  webhook_handler_ctor : String → Except PyExc Dispatcher

/-- Lines 32-46, `initialize_line_bot()`: if both secrets are truthy,
construct `LineBotApi` and assign it to the global `line_bot_api`
(line 37), then construct `WebhookHandler` and assign it to the global
`handler` (line 38) — two separate assignments, in that order. The
surrounding `try/except Exception` converts any constructor exception to
a `False` result, but an assignment already performed stays: if line 38
raises after line 37 succeeded, the state keeps `line_bot_api` set and
`handler` unassigned. -/
def initialize_line_bot (cfg : Config) (sdk : LineSdk) (st : AppState) :
    Bool × AppState :=
  if truthy cfg.LINE_CHANNEL_ACCESS_TOKEN &&
      truthy cfg.LINE_CHANNEL_SECRET then
    match sdk.line_bot_api_ctor (cfg.LINE_CHANNEL_ACCESS_TOKEN.getD "") with
    | .error _ => (false, st)
    | .ok api =>
      match sdk.webhook_handler_ctor (cfg.LINE_CHANNEL_SECRET.getD "") with
      | .error _ => (false, { st with line_bot_api := some api })
      | .ok d =>
        (true, { st with line_bot_api := some api, handler := some d })
  else
    (false, st)

/-- Opaque stand-ins for the values the Google-auth pipeline threads
through: the dict produced by `json.loads` (line 54). -/
structure ServiceAccountInfo where
  raw : String

/-- The scoped credentials object (lines 63-65). -/
structure GoogleCredentials where
  info : ServiceAccountInfo
  scopes : List String

/-- The Google-side SDK operations `initialize_google_sheets` calls:
`json.loads` (line 54), `Credentials.from_service_account_info`
(lines 63-65) and `gspread.authorize` (line 68), each of which may
raise. -/
structure SheetsSdk where
  json_loads : String → Except PyExc ServiceAccountInfo
  from_service_account_info :
    ServiceAccountInfo → List String → Except PyExc GoogleCredentials
  authorize : GoogleCredentials → Except PyExc SheetsClient

/-- The two OAuth scopes, lines 57-60. -/
def google_scopes : List String :=
  ["https://www.googleapis.com/auth/spreadsheets",
   "https://www.googleapis.com/auth/drive"]

/-- Lines 48-76, `initialize_google_sheets()`: with a truthy credential
blob, parse it, build scoped credentials, authorize a client and assign
the global `sheets_client`; any exception is caught and converted to a
`False` result, leaving the state unchanged. -/
def initialize_google_sheets (cfg : Config) (sdk : SheetsSdk)
    (st : AppState) : Bool × AppState :=
  if truthy cfg.GOOGLE_CREDENTIALS_JSON then
    match sdk.json_loads (cfg.GOOGLE_CREDENTIALS_JSON.getD "") with
    | .error _ => (false, st)
    | .ok credentials_info =>
      match sdk.from_service_account_info credentials_info google_scopes with
      | .error _ => (false, st)
      | .ok credentials =>
        match sdk.authorize credentials with
        | .error _ => (false, st)
        | .ok client => (true, { st with sheets_client := some client })
  else
    (false, st)

/-- Module import of `app.py`, in source order: read configuration
(lines 19-25, total), set the three globals to `None` (lines 28-30),
define the functions and routes (no effect), then evaluate the decorator
`@handler.add(MessageEvent, message=TextMessage)` at line 140 — an
attribute access on the CURRENT value of the global `handler`. Only
after line 140 does either branch of the trailing `if __name__ ...`
block (lines 169-190) call the initializers. If line 140 raises, the
exception is uncaught at module level and import fails. -/
def module_load (env : Env) (line_sdk : LineSdk) (sheets_sdk : SheetsSdk) :
    Except PyExc AppState :=
  let cfg := loadConfig env
  let st : AppState :=
    { line_bot_api := none, handler := none, sheets_client := none }
  match st.handler with
  | none => .error (.attributeError "NoneType object has no attribute add")
  | some _ =>
    let st1 := (initialize_line_bot cfg line_sdk st).2
    let st2 := (initialize_google_sheets cfg sheets_sdk st1).2
    .ok st2

/-! Concrete fixtures used by witness theorems. -/

/-- A configuration with every optional value absent. -/
def cfg0 : Config := ⟨none, none, none, "Sheet1", none⟩

/-- A worksheet whose remote append always succeeds. -/
def ws_ok : Worksheet := ⟨fun _ => .ok ()⟩

/-- A spreadsheet whose worksheet lookup always succeeds. -/
def spreadsheet_ok : Spreadsheet := ⟨fun _ => .ok ws_ok⟩

/-- A sheets client for which every remote step succeeds. -/
def sheets_ok : SheetsClient := ⟨fun _ => .ok spreadsheet_ok⟩

/-- A well-formed text-message event from user U123 with text hello. -/
def ev_hello : Event := ⟨.ok "U123", .ok "hello"⟩

/-- A malformed event whose field extraction raises. -/
def ev_bad : Event := ⟨.error (.exc "no user_id"), .ok "x"⟩

/-- A LINE client whose profile lookup always raises. -/
def api_down : LineBotApi := ⟨fun _ => .error (.exc "network down")⟩

/-- A request carrying no headers at all. -/
def req_nohdr : Request := ⟨fun _ => none, "body"⟩

/-! Claim theorems. -/

/-- C1: the claim says startup is non-fatal for every assignment of the
five environment values and that the text-message handler registration
performed at module load succeeds regardless of configuration. The code
contradicts this: line 140 evaluates `handler.add(...)` at module load,
before either initializer at lines 169-190 has run, while the global
`handler` is still `None` (line 29) — so import raises `AttributeError`
and the process crashes for EVERY environment and every SDK behaviour,
configured or not. -/
theorem module_load_crashes_at_registration
    (env : Env) (line_sdk : LineSdk) (sheets_sdk : SheetsSdk) :
    module_load env line_sdk sheets_sdk =
      .error (.attributeError "NoneType object has no attribute add") :=
  rfl

/-- C2: the POST /webhook response mapping. Uninitialized dispatcher →
500 with body LINE handler not initialized, for every payload;
`InvalidSignatureError` from dispatch → 400 Invalid signature; any other
exception escaping dispatch → 500 Internal server error; successful
dispatch → 200 OK. -/
theorem webhook_response_mapping
    (line_bot_api : Option LineBotApi) (sheets_client : Option SheetsClient)
    (cfg : Config) (now : String) (req : Request) (d : Dispatcher) :
    webhook none line_bot_api sheets_client cfg now req =
      ("LINE handler not initialized", 500)
    ∧ (d.handle line_bot_api sheets_client cfg now req.body
          ((req.headers "X-Line-Signature").getD "") =
            .error .invalidSignatureError →
        webhook (some d) line_bot_api sheets_client cfg now req =
          ("Invalid signature", 400))
    ∧ (∀ e, e ≠ PyExc.invalidSignatureError →
        d.handle line_bot_api sheets_client cfg now req.body
          ((req.headers "X-Line-Signature").getD "") = .error e →
        webhook (some d) line_bot_api sheets_client cfg now req =
          ("Internal server error", 500))
    ∧ (∀ results, d.handle line_bot_api sheets_client cfg now req.body
          ((req.headers "X-Line-Signature").getD "") = .ok results →
        webhook (some d) line_bot_api sheets_client cfg now req =
          ("OK", 200)) := by
  refine ⟨rfl, fun h => ?_, fun e hne h => ?_, fun results h => ?_⟩
  · simp [webhook, h]
  · cases e with
    | invalidSignatureError => exact absurd rfl hne
    | attributeError msg => simp [webhook, h]
    | exc msg => simp [webhook, h]
  · simp [webhook, h]

/-- C2 witness: the three conditional branches at concrete dispatchers
(signature mismatch, parse failure after matching signature, and a
successful dispatch of an empty event list). -/
theorem webhook_response_mapping_witness :
    webhook (some ⟨"s", fun _ _ => "expected", fun _ => .ok []⟩)
        none none cfg0 "ts" req_nohdr = ("Invalid signature", 400)
    ∧ webhook (some ⟨"s", fun _ _ => "", fun _ => .error (.exc "bad json")⟩)
        none none cfg0 "ts" req_nohdr = ("Internal server error", 500)
    ∧ webhook (some ⟨"s", fun _ _ => "", fun _ => .ok []⟩)
        none none cfg0 "ts" req_nohdr = ("OK", 200) :=
  ⟨(webhook_response_mapping none none cfg0 "ts" req_nohdr _).2.1 rfl,
   (webhook_response_mapping none none cfg0 "ts" req_nohdr _).2.2.1
      (.exc "bad json") (by simp) rfl,
   (webhook_response_mapping none none cfg0 "ts" req_nohdr _).2.2.2
      [] rfl⟩

/-- C5: `write_to_sheet` never raises — it is a total function whose
result is either a successful append of exactly the 4-tuple row or a
`False` with nothing appended; and it returns `True` exactly when the
client is initialized and opening the spreadsheet, selecting the
worksheet, and the remote append all succeeded. -/
theorem write_to_sheet_never_raises
    (sheets_client : Option SheetsClient) (cfg : Config)
    (now user_id display_name message_text : String) :
    (write_to_sheet sheets_client cfg now user_id display_name message_text =
        (true, [[now, user_id, display_name, message_text]])
      ∨ write_to_sheet sheets_client cfg now user_id display_name
          message_text = (false, []))
    ∧ ((write_to_sheet sheets_client cfg now user_id display_name
          message_text).1 = true ↔
        ∃ c spreadsheet ws, sheets_client = some c
          ∧ c.open_by_key cfg.GOOGLE_SPREADSHEET_ID = .ok spreadsheet
          ∧ spreadsheet.worksheet cfg.GOOGLE_SHEET_NAME = .ok ws
          ∧ ws.append_row [now, user_id, display_name, message_text] =
              .ok ()) := by
  cases hsc : sheets_client with
  | none => simp [write_to_sheet]
  | some c =>
    cases hop : c.open_by_key cfg.GOOGLE_SPREADSHEET_ID with
    | error e => simp [write_to_sheet, hop]
    | ok spreadsheet =>
      cases hws : spreadsheet.worksheet cfg.GOOGLE_SHEET_NAME with
      | error e =>
        constructor
        · right; simp [write_to_sheet, hop, hws]
        · simp only [write_to_sheet, hop, hws]
          constructor
          · intro h; simp at h
          · rintro ⟨c', ss', ws', hc, hop', hws', happ'⟩
            cases hc
            rw [hop] at hop'
            cases hop'
            rw [hws] at hws'
            cases hws'
      | ok ws =>
        cases happ : ws.append_row [now, user_id, display_name,
            message_text] with
        | error e =>
          constructor
          · right; simp [write_to_sheet, hop, hws, happ]
          · simp only [write_to_sheet, hop, hws, happ]
            constructor
            · intro h; simp at h
            · rintro ⟨c', ss', ws', hc, hop', hws', happ'⟩
              cases hc
              rw [hop] at hop'
              cases hop'
              rw [hws] at hws'
              cases hws'
              rw [happ] at happ'
              cases happ'
        | ok u =>
          constructor
          · left; simp [write_to_sheet, hop, hws, happ]
          · simp only [write_to_sheet, hop, hws, happ]
            constructor
            · intro _; exact ⟨c, spreadsheet, ws, rfl, hop, hws, happ⟩
            · intro _; trivial

/-- C5 witness: the dichotomy evaluated at an uninitialized client and
at an all-success client. -/
theorem write_to_sheet_never_raises_witness :
    (write_to_sheet none cfg0 "ts" "U123" "Alice" "hello" =
        (true, [["ts", "U123", "Alice", "hello"]])
      ∨ write_to_sheet none cfg0 "ts" "U123" "Alice" "hello" = (false, []))
    ∧ (write_to_sheet (some sheets_ok) cfg0 "ts" "U123" "Alice"
          "hello").1 = true :=
  ⟨(write_to_sheet_never_raises none cfg0 "ts" "U123" "Alice" "hello").1,
   (write_to_sheet_never_raises (some sheets_ok) cfg0 "ts" "U123" "Alice"
      "hello").2.mpr ⟨sheets_ok, spreadsheet_ok, ws_ok, rfl, rfl, rfl, rfl⟩⟩

/-- C3: for a verified text-message event carrying sender id `u` and
text `t`, when the spreadsheet pipeline succeeds, exactly one row is
appended, and it is the ordered 4-tuple
[timestamp, u, resolved-name-or-sentinel, t] in exactly that column
order; the third column is the resolved display name or the sentinel
Unknown User. -/
theorem handle_appends_single_row
    (line_bot_api : Option LineBotApi) (cfg : Config) (now u t : String)
    (event : Event) (c : SheetsClient) (spreadsheet : Spreadsheet)
    (ws : Worksheet)
    (hu : event.source_user_id = .ok u)
    (ht : event.message_text = .ok t)
    (hopen : c.open_by_key cfg.GOOGLE_SPREADSHEET_ID = .ok spreadsheet)
    (hws : spreadsheet.worksheet cfg.GOOGLE_SHEET_NAME = .ok ws)
    (happ : ws.append_row [now, u, get_display_name line_bot_api u, t] =
        .ok ()) :
    handle_text_message line_bot_api (some c) cfg now event =
      (.success, [[now, u, get_display_name line_bot_api u, t]])
    ∧ (get_display_name line_bot_api u = "Unknown User"
      ∨ ∃ api profile, line_bot_api = some api
          ∧ api.get_profile u = .ok profile
          ∧ get_display_name line_bot_api u = profile.display_name) := by
  constructor
  · simp [handle_text_message, handle_text_message_body, write_to_sheet,
      hu, ht, hopen, hws, happ]
  · cases hapi : line_bot_api with
    | none => left; simp [get_display_name]
    | some api =>
      cases hp : api.get_profile u with
      | error e => left; simp [get_display_name, hp]
      | ok profile =>
        right
        exact ⟨api, profile, rfl, hp, by simp [get_display_name, hp]⟩

/-- C3 witness: one well-formed event against an all-success sheets
client, with profile lookup unavailable, appends exactly the single row
with the sentinel name. -/
theorem handle_appends_single_row_witness :
    handle_text_message none (some sheets_ok) cfg0 "2024-01-01 00:00:00"
        ev_hello =
      (.success, [["2024-01-01 00:00:00", "U123", "Unknown User",
        "hello"]]) :=
  (handle_appends_single_row none cfg0 "2024-01-01 00:00:00" "U123"
    "hello" ev_hello sheets_ok spreadsheet_ok ws_ok rfl rfl rfl rfl rfl).1

/-- C4: display-name resolution is best-effort. For an event whose
fields extract, if the profile lookup fails for any reason — the client
is uninitialized (`None.get_profile` raises `AttributeError`) or
`get_profile` raises — the handler uses the sentinel Unknown User and
the sheet write is still attempted: the outcome and appended rows are
exactly those of `write_to_sheet` called with the sentinel. -/
theorem display_name_best_effort
    (line_bot_api : Option LineBotApi) (sheets_client : Option SheetsClient)
    (cfg : Config) (now u t : String) (event : Event)
    (hu : event.source_user_id = .ok u)
    (ht : event.message_text = .ok t)
    (hfail : line_bot_api = none
      ∨ ∃ api e, line_bot_api = some api ∧ api.get_profile u = .error e) :
    get_display_name line_bot_api u = "Unknown User"
    ∧ handle_text_message line_bot_api sheets_client cfg now event =
        (if (write_to_sheet sheets_client cfg now u "Unknown User" t).1
            then Outcome.success else Outcome.failure,
         (write_to_sheet sheets_client cfg now u "Unknown User" t).2) := by
  have hname : get_display_name line_bot_api u = "Unknown User" := by
    rcases hfail with h | ⟨api, e, h, hp⟩
    · simp [get_display_name, h]
    · simp [get_display_name, h, hp]
  refine ⟨hname, ?_⟩
  rcases hw : write_to_sheet sheets_client cfg now u "Unknown User" t
    with ⟨b, rows⟩
  cases b
  · simp [handle_text_message, handle_text_message_body, hu, ht, hname, hw]
  · simp [handle_text_message, handle_text_message_body, hu, ht, hname, hw]

/-- C4 witness: a failing profile lookup together with an uninitialized
sheets client — the sentinel is used and the write is still attempted
(and reports failure). -/
theorem display_name_best_effort_witness :
    get_display_name (some api_down) "U123" = "Unknown User"
    ∧ handle_text_message (some api_down) none cfg0 "ts" ev_hello =
        (.failure, []) :=
  display_name_best_effort (some api_down) none cfg0 "ts" "U123" "hello"
    ev_hello rfl rfl
    (Or.inr ⟨api_down, .exc "network down", rfl, rfl⟩)

/-- C6: the Message Handler never re-raises. Dispatch over a payload is
the independent, order-preserving processing of each event: the first
event's handling (whatever its outcome) never prevents the remaining
events from being processed, and when the handler body raises, the
catch-all converts it to a logged outcome with nothing appended. -/
theorem handler_failure_isolated
    (line_bot_api : Option LineBotApi) (sheets_client : Option SheetsClient)
    (cfg : Config) (now : String) (event : Event) (rest : List Event) :
    dispatch_events line_bot_api sheets_client cfg now (event :: rest) =
      handle_text_message line_bot_api sheets_client cfg now event ::
        dispatch_events line_bot_api sheets_client cfg now rest
    ∧ ∀ e, handle_text_message_body line_bot_api sheets_client cfg now
          event = .error e →
        handle_text_message line_bot_api sheets_client cfg now event =
          (.caught e, []) := by
  refine ⟨rfl, fun e he => ?_⟩
  simp [handle_text_message, he]

/-- C6 witness: a malformed first event whose extraction raises is
caught and logged, and the well-formed second event in the same payload
is still processed and appended. -/
theorem handler_failure_isolated_witness :
    dispatch_events none (some sheets_ok) cfg0 "ts" [ev_bad, ev_hello] =
      (.caught (.exc "no user_id"), []) ::
        [(.success, [["ts", "U123", "Unknown User", "hello"]])] := by
  have h := handler_failure_isolated none (some sheets_ok) cfg0 "ts"
    ev_bad [ev_hello]
  rw [h.1, h.2 (.exc "no user_id") rfl]
  rfl

/-- C7: configuration loading is a total function of the environment
(no error for any assignment of the five values): each value is read by
presence only, an absent GOOGLE_SHEET_NAME yields the default Sheet1 (a
present one is taken verbatim), and every other absent value propagates
as `None` (a present one verbatim) to be checked downstream. -/
theorem load_config_presence_only (env : Env) :
    (loadConfig env).LINE_CHANNEL_ACCESS_TOKEN =
        env "LINE_CHANNEL_ACCESS_TOKEN"
    ∧ (loadConfig env).LINE_CHANNEL_SECRET = env "LINE_CHANNEL_SECRET"
    ∧ (loadConfig env).GOOGLE_SPREADSHEET_ID = env "GOOGLE_SPREADSHEET_ID"
    ∧ (loadConfig env).GOOGLE_CREDENTIALS_JSON =
        env "GOOGLE_CREDENTIALS_JSON"
    ∧ (env "GOOGLE_SHEET_NAME" = none →
        (loadConfig env).GOOGLE_SHEET_NAME = "Sheet1")
    ∧ (∀ s, env "GOOGLE_SHEET_NAME" = some s →
        (loadConfig env).GOOGLE_SHEET_NAME = s) := by
  refine ⟨rfl, rfl, rfl, rfl, fun h => ?_, fun s h => ?_⟩
  · simp [loadConfig, h]
  · simp [loadConfig, h]

/-- C7 witness: the empty environment yields the default sheet name and
`None` for every other value. -/
theorem load_config_presence_only_witness :
    (loadConfig (fun _ => none)).GOOGLE_SHEET_NAME = "Sheet1"
    ∧ (loadConfig (fun _ => none)).LINE_CHANNEL_ACCESS_TOKEN = none
    ∧ (loadConfig (fun _ => none)).GOOGLE_CREDENTIALS_JSON = none :=
  ⟨(load_config_presence_only (fun _ => none)).2.2.2.2.1 rfl,
   (load_config_presence_only (fun _ => none)).1,
   (load_config_presence_only (fun _ => none)).2.2.2.1⟩

/-- C8: for every adapter state, GET / and GET /health return 200; the
body of / reports `line_configured` exactly when the `line_bot_api`
singleton is non-null and `sheets_configured` exactly when the
`sheets_client` singleton is non-null; and the response depends only on
the null-ness of the two singletons, not on their behaviour — neither
endpoint invokes either adapter. -/
theorem status_endpoints_reflect_singletons
    (a a' : Option LineBotApi) (s s' : Option SheetsClient) :
    home a s =
      (200, ⟨"LINE to Sheets System is running on Render.com", "ok",
        a.isSome, s.isSome⟩)
    ∧ health = (200, "healthy")
    ∧ (a.isSome = a'.isSome → s.isSome = s'.isSome →
        home a s = home a' s') := by
  refine ⟨rfl, rfl, fun h1 h2 => ?_⟩
  simp [home, h1, h2]

/-- C8 witness: two clients with opposite profile-lookup behaviour give
the identical / response (the endpoint never invokes the adapter), and
both endpoints report 200. -/
theorem status_endpoints_reflect_singletons_witness :
    home (some ⟨fun _ => .ok ⟨"Alice"⟩⟩) none =
      home (some api_down) none
    ∧ health = (200, "healthy")
    ∧ (home none (some sheets_ok)).1 = 200 :=
  ⟨(status_endpoints_reflect_singletons (some ⟨fun _ => .ok ⟨"Alice"⟩⟩)
      (some api_down) none none).2.2 rfl rfl,
   (status_endpoints_reflect_singletons none none none none).2.1,
   congrArg Prod.fst
     (status_endpoints_reflect_singletons none none (some sheets_ok)
       (some sheets_ok)).1⟩

/-- C9: a POST to /webhook without an X-Line-Signature header, with the
dispatcher initialized, is handled as an empty-string signature: the
header read itself cannot fail (`headers.get` with default), and since
the expected digest of the body is never the empty string the
verification fails, producing 400 Invalid signature — not a 500 and not
a crash. -/
theorem missing_signature_header_rejected
    (line_bot_api : Option LineBotApi) (sheets_client : Option SheetsClient)
    (cfg : Config) (now : String) (d : Dispatcher) (req : Request)
    (hhdr : req.headers "X-Line-Signature" = none)
    (hdigest : d.signature_of d.channel_secret req.body ≠ "") :
    webhook (some d) line_bot_api sheets_client cfg now req =
      ("Invalid signature", 400) := by
  have hsig : (("" : String) == d.signature_of d.channel_secret req.body) =
      false := by
    simp only [beq_eq_false_iff_ne, ne_eq]
    exact fun h => hdigest h.symm
  simp [webhook, Dispatcher.handle, hhdr, hsig]

/-- C9 witness: a concrete dispatcher whose digest is nonempty and a
request with no headers at all. -/
theorem missing_signature_header_rejected_witness :
    webhook (some ⟨"secret", fun _ _ => "digest", fun _ => .ok []⟩)
        none none cfg0 "ts" req_nohdr = ("Invalid signature", 400) :=
  missing_signature_header_rejected none none cfg0 "ts"
    ⟨"secret", fun _ _ => "digest", fun _ => .ok []⟩ req_nohdr rfl
    (by decide)

/-- C10: the two messaging singletons are assigned non-atomically and in
the order `line_bot_api` first, `handler` second. If, starting from the
all-`None` state, `LineBotApi(...)` succeeds and `WebhookHandler(...)`
then raises, `initialize_line_bot` returns `False` with `line_bot_api`
set and `handler` still `None`; GET / on that state reports
`line_configured` as true, while every POST /webhook answers 500 LINE
handler not initialized. -/
theorem initialize_line_bot_nonatomic
    (cfg : Config) (sdk : LineSdk) (api : LineBotApi) (e : PyExc)
    (sheets_client : Option SheetsClient) (now : String) (req : Request)
    (htok : truthy cfg.LINE_CHANNEL_ACCESS_TOKEN = true)
    (hsec : truthy cfg.LINE_CHANNEL_SECRET = true)
    (hapi : sdk.line_bot_api_ctor (cfg.LINE_CHANNEL_ACCESS_TOKEN.getD "") =
        .ok api)
    (hwh : sdk.webhook_handler_ctor (cfg.LINE_CHANNEL_SECRET.getD "") =
        .error e) :
    initialize_line_bot cfg sdk ⟨none, none, none⟩ =
      (false, ⟨some api, none, none⟩)
    ∧ (home (some api) sheets_client).2.line_configured = true
    ∧ webhook none (some api) sheets_client cfg now req =
        ("LINE handler not initialized", 500) := by
  refine ⟨?_, rfl, rfl⟩
  simp [initialize_line_bot, htok, hsec, hapi, hwh]

/-- C10 witness: concrete SDK constructors where the first succeeds and
the second raises, from the startup state. -/
theorem initialize_line_bot_nonatomic_witness :
    initialize_line_bot ⟨some "token", some "secret", none, "Sheet1", none⟩
        ⟨fun _ => .ok api_down, fun _ => .error (.exc "ctor boom")⟩
        ⟨none, none, none⟩ =
      (false, ⟨some api_down, none, none⟩)
    ∧ (home (some api_down) none).2.line_configured = true
    ∧ webhook none (some api_down) none
        ⟨some "token", some "secret", none, "Sheet1", none⟩ "ts" req_nohdr =
        ("LINE handler not initialized", 500) :=
  initialize_line_bot_nonatomic
    ⟨some "token", some "secret", none, "Sheet1", none⟩
    ⟨fun _ => .ok api_down, fun _ => .error (.exc "ctor boom")⟩
    api_down (.exc "ctor boom") none "ts" req_nohdr
    (by decide) (by decide) rfl rfl
